import Mathlib

/-!
Shallow embedding of `src/main.go` (Ichsand/Github-User-Activity).

The program performs one HTTP GET, decodes the body as a JSON array of
event records, and prints one line per event.  We model:

* the JSON values the Go standard library `encoding/json` hands to the
  decoder (a small AST `Json`; a body that is not valid JSON text is the
  separate `Body.malformed` case),
* the decoding of that AST into the `Event` / `Repo` / `Payload` /
  `Issue` / `Forkee` structs, following the `encoding/json` rules the
  code relies on: an absent field keeps the zero value, a JSON `null`
  leaves a field at its zero value (and a slice at `nil`), a duplicated
  key keeps the last occurrence, a type mismatch is an error,
* `strings.Title` (ASCII fragment: `unicode.ToTitle` coincides with
  upper-casing there, and Go treats every ASCII character other than
  alphanumerics and the underscore as a word separator),
* `getGithubActivity` itself, as a function from the HTTP outcome to the
  list of lines written to standard output.  Each `fmt.Printf` of the Go
  code ends in `\n`; the header printf ends in `\n\n` and therefore
  contributes two list entries, the header line and a blank line.
-/

/-- JSON values, as delivered by `encoding/json` after parsing. -/
inductive Json where
  | null : Json
  | bool (b : Bool) : Json
  | num (n : Int) : Json
  | str (s : String) : Json
  | arr (elems : List Json) : Json
  | obj (fields : List (String × Json)) : Json

/-- Whether a JSON value is an array. -/
def Json.isArr : Json → Bool
  | .arr _ => true
  | _ => false

/-- Mirror of the Go struct `Repo` (field `name` from tag `json:"name"`). -/
structure Repo where
  name : String
deriving Repr, DecidableEq

/-- Mirror of the Go struct `Issue` (field `title`). -/
structure Issue where
  title : String
deriving Repr, DecidableEq

/-- Mirror of the Go struct `Forkee` (field `full_name`). -/
structure Forkee where
  fullName : String
deriving Repr, DecidableEq

/-- Mirror of the Go struct `Payload`.  `Commits` is `[]any` in Go: only
its length is ever read, so its elements stay raw JSON values. -/
structure Payload where
  action : String
  refType : String
  commits : List Json
  issue : Issue
  forkee : Forkee
  pullRequest : Issue

/-- Mirror of the Go struct `Event`. -/
structure Event where
  type : String
  repo : Repo
  payload : Payload

/-- The zero value of `Payload`, as Go leaves it when fields are absent. -/
def zeroPayload : Payload :=
  { action := "", refType := "", commits := [],
    issue := ⟨""⟩, forkee := ⟨""⟩, pullRequest := ⟨""⟩ }

/-- Field lookup in a decoded JSON object.  `encoding/json` assigns keys
in order, so a duplicated key keeps its last occurrence. -/
def lookupField (fields : List (String × Json)) (key : String) : Option Json :=
  fields.reverse.lookup key

/-- Decode a JSON value into a Go `string` field.  `none` means the field
was absent; absence and `null` keep the zero value `""`. -/
def decodeString : Option Json → Option String
  | none => some ""
  | some .null => some ""
  | some (.str s) => some s
  | some _ => none

/-- Decode into the `Repo` struct. -/
def decodeRepo : Option Json → Option Repo
  | none => some ⟨""⟩
  | some .null => some ⟨""⟩
  | some (.obj fs) => do
      let nm ← decodeString (lookupField fs "name")
      pure ⟨nm⟩
  | some _ => none

/-- Decode into the `Issue` struct (also used for `pull_request`). -/
def decodeIssue : Option Json → Option Issue
  | none => some ⟨""⟩
  | some .null => some ⟨""⟩
  | some (.obj fs) => do
      let t ← decodeString (lookupField fs "title")
      pure ⟨t⟩
  | some _ => none

/-- Decode into the `Forkee` struct. -/
def decodeForkee : Option Json → Option Forkee
  | none => some ⟨""⟩
  | some .null => some ⟨""⟩
  | some (.obj fs) => do
      let n ← decodeString (lookupField fs "full_name")
      pure ⟨n⟩
  | some _ => none

/-- Decode into the `[]any` commits slice: any JSON array is accepted
element-wise; absence or `null` leaves the slice `nil` (length 0). -/
def decodeCommits : Option Json → Option (List Json)
  | none => some []
  | some .null => some []
  | some (.arr xs) => some xs
  | some _ => none

/-- Decode into the `Payload` struct. -/
def decodePayload : Option Json → Option Payload
  | none => some zeroPayload
  | some .null => some zeroPayload
  | some (.obj fs) => do
      let action ← decodeString (lookupField fs "action")
      let refType ← decodeString (lookupField fs "ref_type")
      let commits ← decodeCommits (lookupField fs "commits")
      let issue ← decodeIssue (lookupField fs "issue")
      let forkee ← decodeForkee (lookupField fs "forkee")
      let pr ← decodeIssue (lookupField fs "pull_request")
      pure ⟨action, refType, commits, issue, forkee, pr⟩
  | some _ => none

/-- Decode one element of the array into an `Event`.  A `null` element
leaves the struct at its zero value, as `encoding/json` does. -/
def unmarshalEvent : Json → Option Event
  | .null => some ⟨"", ⟨""⟩, zeroPayload⟩
  | .obj fs => do
      let ty ← decodeString (lookupField fs "type")
      let repo ← decodeRepo (lookupField fs "repo")
      let payload ← decodePayload (lookupField fs "payload")
      pure ⟨ty, repo, payload⟩
  | _ => none

/-- Decode every element of the array in order. -/
def unmarshalEventList : List Json → Option (List Event)
  | [] => some []
  | j :: js => do
      let e ← unmarshalEvent j
      let es ← unmarshalEventList js
      pure (e :: es)

/-- The `json.Unmarshal(body, &events)` step on an already parsed JSON
value.  A top-level `null` leaves the slice `nil` (so zero events) and is
not an error; any other non-array value is an error. -/
def unmarshalEvents : Json → Option (List Event)
  | .null => some []
  | .arr js => unmarshalEventList js
  | _ => none

/-- Go `isSeparator` (from the `strings.Title` implementation), on the
ASCII fragment: ASCII alphanumerics and the underscore are not
separators, every other ASCII character is; beyond ASCII only white
space separates. -/
def isSeparator (c : Char) : Bool :=
  let n := c.toNat
  if n ≤ 0x7F then
    if (48 ≤ n ∧ n ≤ 57) ∨ (97 ≤ n ∧ n ≤ 122) ∨ (65 ≤ n ∧ n ≤ 90) ∨ n = 95 then
      false
    else
      true
  else
    c.isWhitespace

/-- Character-by-character pass of `strings.Title`: a character is
title-cased exactly when the previous character is a separator. -/
def goTitleAux : Char → List Char → List Char
  | _, [] => []
  | prev, c :: cs =>
      (if isSeparator prev then c.toUpper else c) :: goTitleAux c cs

/-- Go `strings.Title` (ASCII fragment; `unicode.ToTitle` is plain
upper-casing on ASCII).  The previous character starts as a space. -/
def goTitle (s : String) : String :=
  ⟨goTitleAux ' ' s.data⟩

/-- Modelled from the spec: the capitalization rule the spec prescribes
for the action string, upper-casing the first letter only and leaving
the rest of the token unchanged, at the character-list level. -/
def upperFirstList : List Char → List Char
  | [] => []
  | c :: cs => c.toUpper :: cs

/-- Modelled from the spec: first-letter-only capitalization of a token,
used to compare with `goTitle`, the rule the source actually applies. -/
def upperFirst (s : String) : String :=
  ⟨upperFirstList s.data⟩

/-- The switch of `getGithubActivity` (lines 99-120): one line per event,
selected by the event type, with a fallback for unrecognized types. -/
def renderEvent (e : Event) : String :=
  if e.type = "PushEvent" then
    "- Pushed " ++ toString e.payload.commits.length ++ " commit(s) to " ++ e.repo.name
  else if e.type = "CreateEvent" then
    "- Created a new " ++ e.payload.refType ++ " in " ++ e.repo.name
  else if e.type = "IssuesEvent" then
    "- " ++ goTitle e.payload.action ++ " an issue in " ++ e.repo.name ++
      ": \"" ++ e.payload.issue.title ++ "\""
  else if e.type = "IssueCommentEvent" then
    "- Commented on an issue in " ++ e.repo.name ++ ": \"" ++ e.payload.issue.title ++ "\""
  else if e.type = "WatchEvent" then
    "- " ++ goTitle e.payload.action ++ " watching " ++ e.repo.name
  else if e.type = "ForkEvent" then
    "- Forked " ++ e.repo.name ++ " to " ++ e.payload.forkee.fullName
  else if e.type = "PullRequestEvent" then
    "- " ++ goTitle e.payload.action ++ " a pull request in " ++ e.repo.name ++
      ": \"" ++ e.payload.pullRequest.title ++ "\""
  else if e.type = "PublicEvent" then
    "- Made " ++ e.repo.name ++ " public"
  else
    "- Performed a " ++ e.type ++ " on " ++ e.repo.name

/-- The response body as the program sees it: either text that is not
valid JSON, or a parsed JSON value. -/
inductive Body where
  | malformed : Body
  | json (j : Json) : Body

/-- The `json.Unmarshal` step on the raw body. -/
def decodeBody : Body → Option (List Event)
  | .malformed => none
  | .json j => unmarshalEvents j

/-- Outcome of the `http.Get` call: transport failure, or a response
with a status code and a body. -/
inductive HttpResult where
  | netError (reason : String) : HttpResult
  | response (statusCode : Nat) (body : Body) : HttpResult

/-- The Go function `getGithubActivity`, as the list of lines it writes
to standard output.  The header printf ends in two newlines and so
contributes the header line followed by a blank line. -/
def getGithubActivity (username : String) : HttpResult → List String
  | .netError reason =>
      ["Error: Could not reach GitHub API. Reason: " ++ reason]
  | .response code body =>
      if code = 404 then
        ["Error: Could not find GitHub user \x27" ++ username ++ "\x27."]
      else if code ≠ 200 then
        ["Error: Received status code " ++ toString code ++ " from GitHub API."]
      else
        match decodeBody body with
        | none => ["Error: Failed to parse the response from the GitHub API."]
        | some events =>
            ("Recent Activity for " ++ username ++ ":") :: "" ::
              (if events.length = 0 then
                ["No recent public activity found."]
              else
                events.map renderEvent)

/-! Helper lemmas about `goTitle`. -/

theorem isSeparator_space : isSeparator ' ' = true := rfl

theorem goTitleAux_of_no_sep (cs : List Char) : ∀ prev : Char, isSeparator prev = false →
    (∀ c ∈ cs, isSeparator c = false) → goTitleAux prev cs = cs := by
  induction cs with
  | nil => intro prev _ _; rfl
  | cons c cs ih =>
      intro prev hprev hall
      have hc : isSeparator c = false := hall c (List.mem_cons_self c cs)
      simp [goTitleAux, hprev, ih c hc (fun x hx => hall x (List.mem_cons_of_mem _ hx))]

theorem goTitle_of_no_sep (s : String) (h : ∀ c ∈ s.data, isSeparator c = false) :
    goTitle s = upperFirst s := by
  unfold goTitle upperFirst
  congr 1
  cases hs : s.data with
  | nil => rfl
  | cons c cs =>
      have hc : isSeparator c = false := h c (hs ▸ List.mem_cons_self c cs)
      have hcs : ∀ x ∈ cs, isSeparator x = false :=
        fun x hx => h x (hs ▸ List.mem_cons_of_mem _ hx)
      simp [upperFirstList, goTitleAux, isSeparator_space, goTitleAux_of_no_sep cs c hc hcs]

/-- C4: a 404 response yields exactly one error line naming the username,
with no header and no event lines, regardless of the body. -/
theorem c4_not_found (u : String) (b : Body) :
    getGithubActivity u (.response 404 b) =
      ["Error: Could not find GitHub user \x27" ++ u ++ "\x27."] := rfl

/-- C5: any status other than 200 and 404 yields exactly one error line
reporting the numeric status code, with no header and no event lines. -/
theorem c5_status (u : String) (code : Nat) (b : Body)
    (h404 : code ≠ 404) (h200 : code ≠ 200) :
    getGithubActivity u (.response code b) =
      ["Error: Received status code " ++ toString code ++ " from GitHub API."] := by
  simp [getGithubActivity, h404, h200]

/-- Witness for C5: a 500 response reports status code 500. -/
theorem c5_witness :
    getGithubActivity "alice" (.response 500 .malformed) =
      ["Error: Received status code 500 from GitHub API."] := by
  rw [c5_status "alice" 500 .malformed (by decide) (by decide)]
  decide

/-- C6: a 200 response decoding to the empty event list yields the header,
a blank line, and the no-activity message, with no event lines and no
error message. -/
theorem c6_empty (u : String) (b : Body) (h : decodeBody b = some []) :
    getGithubActivity u (.response 200 b) =
      ["Recent Activity for " ++ u ++ ":", "", "No recent public activity found."] := by
  simp [getGithubActivity, h]

/-- Witness for C6: the empty JSON array body. -/
theorem c6_witness :
    getGithubActivity "alice" (.response 200 (.json (.arr []))) =
      ["Recent Activity for alice:", "", "No recent public activity found."] := by
  rw [c6_empty "alice" (.json (.arr [])) rfl]
  decide

/-- C7: an event whose type is none of the eight recognized categories is
rendered by the fallback line with the raw type and repository name
substituted verbatim. -/
theorem c7_fallback (e : Event)
    (h : e.type ∉ ["PushEvent", "CreateEvent", "IssuesEvent", "IssueCommentEvent",
      "WatchEvent", "ForkEvent", "PullRequestEvent", "PublicEvent"]) :
    renderEvent e = "- Performed a " ++ e.type ++ " on " ++ e.repo.name := by
  simp only [List.mem_cons, List.not_mem_nil, or_false, not_or] at h
  obtain ⟨h1, h2, h3, h4, h5, h6, h7, h8⟩ := h
  simp [renderEvent, h1, h2, h3, h4, h5, h6, h7, h8]

/-- Witness for C7: a GollumEvent on repo a/b takes the fallback line. -/
theorem c7_witness :
    renderEvent ⟨"GollumEvent", ⟨"a/b"⟩, zeroPayload⟩ = "- Performed a GollumEvent on a/b" := by
  rw [c7_fallback ⟨"GollumEvent", ⟨"a/b"⟩, zeroPayload⟩ (by decide)]
  decide

/-- C10: a push event whose payload omits the commits field, or carries it
as JSON null, decodes to an empty commits slice and renders a count of
zero commits. -/
theorem c10_commits_absent (nm : String) :
    unmarshalEvent (.obj [("type", .str "PushEvent"), ("repo", .obj [("name", .str nm)]),
        ("payload", .obj [])]) = some ⟨"PushEvent", ⟨nm⟩, zeroPayload⟩
    ∧ unmarshalEvent (.obj [("type", .str "PushEvent"), ("repo", .obj [("name", .str nm)]),
        ("payload", .obj [("commits", .null)])]) = some ⟨"PushEvent", ⟨nm⟩, zeroPayload⟩
    ∧ renderEvent ⟨"PushEvent", ⟨nm⟩, zeroPayload⟩ = "- Pushed 0 commit(s) to " ++ nm := by
  refine ⟨rfl, rfl, ?_⟩
  have h : (("- Pushed " ++ toString (0 : Nat)) ++ " commit(s) to ") =
      "- Pushed 0 commit(s) to " := by decide
  calc renderEvent ⟨"PushEvent", ⟨nm⟩, zeroPayload⟩
      = (("- Pushed " ++ toString (0 : Nat)) ++ " commit(s) to ") ++ nm := rfl
    _ = "- Pushed 0 commit(s) to " ++ nm := by rw [h]

/-- C1 counterexample: the source applies Go strings.Title, which also
upper-cases the letter after the hyphen, so the action "re-opened" is
rendered "Re-Opened", not the first-letter-only "Re-opened". -/
theorem c1_counterexample :
    renderEvent ⟨"IssuesEvent", ⟨"a/b"⟩, ⟨"re-opened", "", [], ⟨"T"⟩, ⟨""⟩, ⟨""⟩⟩⟩ =
      "- Re-Opened an issue in a/b: \"T\""
    ∧ renderEvent ⟨"IssuesEvent", ⟨"a/b"⟩, ⟨"re-opened", "", [], ⟨"T"⟩, ⟨""⟩, ⟨""⟩⟩⟩ ≠
      "- Re-opened an issue in a/b: \"T\"" := by
  constructor
  · decide
  · decide

/-- C1 amended: for issues, watch and pull request events whose action
contains no separator character (no character other than ASCII
alphanumerics and underscore, the case for every action value GitHub
emits), the rendered line capitalizes exactly the first letter of the
action and leaves the rest unchanged; in general the code title-cases
every separator-delimited word. -/
theorem c1_capitalize_first (e : Event)
    (h : ∀ c ∈ e.payload.action.data, isSeparator c = false) :
    (e.type = "IssuesEvent" → renderEvent e =
      "- " ++ upperFirst e.payload.action ++ " an issue in " ++ e.repo.name ++
        ": \"" ++ e.payload.issue.title ++ "\"")
    ∧ (e.type = "WatchEvent" → renderEvent e =
      "- " ++ upperFirst e.payload.action ++ " watching " ++ e.repo.name)
    ∧ (e.type = "PullRequestEvent" → renderEvent e =
      "- " ++ upperFirst e.payload.action ++ " a pull request in " ++ e.repo.name ++
        ": \"" ++ e.payload.pullRequest.title ++ "\"") := by
  have ht := goTitle_of_no_sep e.payload.action h
  refine ⟨fun hty => ?_, fun hty => ?_, fun hty => ?_⟩ <;> simp [renderEvent, hty, ht]

/-- Witness for C1 amended: action "opened" with title "Bug" renders the
exact line from the spec example. -/
theorem c1_witness :
    renderEvent ⟨"IssuesEvent", ⟨"a/b"⟩, ⟨"opened", "", [], ⟨"Bug"⟩, ⟨""⟩, ⟨""⟩⟩⟩ =
      "- Opened an issue in a/b: \"Bug\"" := by
  rw [(c1_capitalize_first ⟨"IssuesEvent", ⟨"a/b"⟩, ⟨"opened", "", [], ⟨"Bug"⟩, ⟨""⟩, ⟨""⟩⟩⟩
    (by decide)).1 rfl]
  decide

/-- C2: every push event renders as "- Pushed {count} commit(s) to {repo}"
with count the length of its commits slice, and its line appears in the
output of a successfully decoded 200 response containing it. -/
theorem c2_push_line (u : String) (b : Body) (evs : List Event) (e : Event)
    (hdec : decodeBody b = some evs) (hmem : e ∈ evs) (hty : e.type = "PushEvent") :
    renderEvent e =
      "- Pushed " ++ toString e.payload.commits.length ++ " commit(s) to " ++ e.repo.name
    ∧ renderEvent e ∈ getGithubActivity u (.response 200 b) := by
  constructor
  · simp [renderEvent, hty]
  · have hlen : ¬ evs.length = 0 := by
      cases evs with
      | nil => cases hmem
      | cons x xs => simp
    have hout : getGithubActivity u (.response 200 b) =
        ("Recent Activity for " ++ u ++ ":") :: "" :: evs.map renderEvent := by
      simp [getGithubActivity, hdec, hlen]
    rw [hout]
    exact List.mem_cons_of_mem _ (List.mem_cons_of_mem _ (List.mem_map_of_mem renderEvent hmem))

/-- Witness for C2: a push event with 3 commit entries on repo x/y yields
the line "- Pushed 3 commit(s) to x/y" in the output. -/
theorem c2_witness :
    "- Pushed 3 commit(s) to x/y" ∈
      getGithubActivity "alice" (.response 200 (.json (.arr [.obj [("type", .str "PushEvent"),
        ("repo", .obj [("name", .str "x/y")]),
        ("payload", .obj [("commits", .arr [.null, .null, .null])])]]))) :=
  (c2_push_line "alice" (.json (.arr [.obj [("type", .str "PushEvent"),
      ("repo", .obj [("name", .str "x/y")]),
      ("payload", .obj [("commits", .arr [.null, .null, .null])])]]))
    [⟨"PushEvent", ⟨"x/y"⟩, ⟨"", "", [.null, .null, .null], ⟨""⟩, ⟨""⟩, ⟨""⟩⟩⟩]
    ⟨"PushEvent", ⟨"x/y"⟩, ⟨"", "", [.null, .null, .null], ⟨""⟩, ⟨""⟩, ⟨""⟩⟩⟩
    rfl (List.mem_singleton.mpr rfl) rfl).2

/-- C3 counterexample: a 200 body of JSON null is not a JSON array, yet
json.Unmarshal accepts it, leaving the slice empty: the program prints the
header and the no-activity message, not a parse error. -/
theorem c3_counterexample :
    Json.isArr Json.null = false
    ∧ getGithubActivity "alice" (.response 200 (.json .null)) =
        ["Recent Activity for alice:", "", "No recent public activity found."]
    ∧ "Error: Failed to parse the response from the GitHub API." ∉
        getGithubActivity "alice" (.response 200 (.json .null)) := by
  refine ⟨rfl, by decide, by decide⟩

/-- C3 amended: for every 200 response whose body is malformed JSON or is
valid JSON that json.Unmarshal rejects for the event slice, the output is
exactly one parse error line and no event lines. -/
theorem c3_parse_error (u : String) (b : Body) (h : decodeBody b = none) :
    getGithubActivity u (.response 200 b) =
      ["Error: Failed to parse the response from the GitHub API."] := by
  simp [getGithubActivity, h]

/-- Witness for C3 amended: a 200 response whose body is the JSON value
true is rejected and reported as a parse error. -/
theorem c3_witness :
    getGithubActivity "alice" (.response 200 (.json (.bool true))) =
      ["Error: Failed to parse the response from the GitHub API."] :=
  c3_parse_error "alice" (.json (.bool true)) rfl

/-- C8: a successfully decoded non-empty event list renders to the header,
a blank line, and then exactly one line per event, in input order. -/
theorem c8_order (u : String) (b : Body) (evs : List Event)
    (hdec : decodeBody b = some evs) (hne : evs ≠ []) :
    getGithubActivity u (.response 200 b) =
      ("Recent Activity for " ++ u ++ ":") :: "" :: evs.map renderEvent
    ∧ (evs.map renderEvent).length = evs.length := by
  have hlen : ¬ evs.length = 0 := by simpa using hne
  constructor
  · simp [getGithubActivity, hdec, hlen]
  · simp

/-- Witness for C8: two events decode and render to two lines in input
order. -/
theorem c8_witness :
    getGithubActivity "alice" (.response 200 (.json (.arr [
      .obj [("type", .str "WatchEvent"), ("repo", .obj [("name", .str "a/b")]),
        ("payload", .obj [("action", .str "started")])],
      .obj [("type", .str "PublicEvent"), ("repo", .obj [("name", .str "c/d")])]]))) =
      ["Recent Activity for alice:", "", "- Started watching a/b", "- Made c/d public"] := by
  rw [(c8_order "alice" (.json (.arr [
      .obj [("type", .str "WatchEvent"), ("repo", .obj [("name", .str "a/b")]),
        ("payload", .obj [("action", .str "started")])],
      .obj [("type", .str "PublicEvent"), ("repo", .obj [("name", .str "c/d")])]]))
    [⟨"WatchEvent", ⟨"a/b"⟩, ⟨"started", "", [], ⟨""⟩, ⟨""⟩, ⟨""⟩⟩⟩,
     ⟨"PublicEvent", ⟨"c/d"⟩, ⟨"", "", [], ⟨""⟩, ⟨""⟩, ⟨""⟩⟩⟩]
    rfl (List.cons_ne_nil _ _)).1]
  decide

/-- C9: an event record whose payload is absent, or is an object with all
fields absent, still decodes (irrelevant fields keep their zero values)
and still produces exactly one output line. -/
theorem c9_absent_fields (ty nm u : String) :
    unmarshalEvent (.obj [("type", .str ty), ("repo", .obj [("name", .str nm)])]) =
      some ⟨ty, ⟨nm⟩, zeroPayload⟩
    ∧ unmarshalEvent (.obj [("type", .str ty), ("repo", .obj [("name", .str nm)]),
        ("payload", .obj [])]) = some ⟨ty, ⟨nm⟩, zeroPayload⟩
    ∧ getGithubActivity u (.response 200 (.json (.arr [.obj [("type", .str ty),
        ("repo", .obj [("name", .str nm)]), ("payload", .obj [])]]))) =
      ["Recent Activity for " ++ u ++ ":", "", renderEvent ⟨ty, ⟨nm⟩, zeroPayload⟩] :=
  ⟨rfl, rfl, rfl⟩
